import Mathlib

/-!
Shallow embedding of the Masters English pricing & application wizard
(`src/src/App.jsx`) and verification of its specified properties.

Modelling conventions:
* JS objects used as string-keyed maps (the `price`, `per`, `PACKAGES` and
  `CURRENCIES` literals) are association lists; property access `obj[k]`
  (which yields `undefined` on a missing key) is `getProp`, returning `Option`.
* JS numbers are rationals (`ℚ`); the catalog only holds exact decimal
  amounts, and the only arithmetic performed (`amount / lessons`,
  `Math.round(x*100)/100`) is exact on them, so `Number.isFinite` is always
  true in the model.
* JS string truthiness (`if (s)`, `s || t`) is `truthy s = (s != "")`;
  number truthiness (`pkg.lessons ? _ : _`) is a `!= 0` test.
* Code that can throw a `TypeError` (property access on `undefined`) is
  modelled in `Except String`.
-/

namespace MastersEnglish

/-- JS property lookup `obj[key]` on an object literal modelled as an
association list; a missing key (`undefined`) is `none`. -/
def getProp {α : Type} (m : List (String × α)) (k : String) : Option α :=
  (m.find? (fun kv => kv.1 == k)).map (fun kv => kv.2)

/-- JS truthiness of a string: every string except `""` is truthy. -/
def truthy (s : String) : Bool := s != ""

/-- A course type card of `COURSE_TYPES` (spec: CategoryDefinition). -/
structure CourseType where
  id : String
  title : String
  subtitle : String
  description : String
deriving DecidableEq, Repr

/-- A package of `PACKAGES` (spec: BundleDefinition): `price` maps a currency
code to an amount, `per` maps a currency code to a pre-formatted per-lesson
label. -/
structure Package where
  id : String
  lessons : Nat
  price : List (String × ℚ)
  title : String
  per : List (String × String)
deriving DecidableEq, Repr

/-- Entry of the `CURRENCIES` config object: `{ label, symbol }`. -/
structure CurrencyInfo where
  label : String
  symbol : String
deriving DecidableEq, Repr

def ctMain : CourseType :=
  { id := "main", title := "Main Course", subtitle := "50–60 minutes per lesson",
    description := "Structured lessons covering grammar, vocabulary, reading, listening, and guided speaking." }

def ctConv : CourseType :=
  { id := "conv", title := "Conversational", subtitle := "30–40 minutes per lesson",
    description := "Speaking-focused sessions to improve fluency, confidence, and natural expression." }

def ctPlacement : CourseType :=
  { id := "placement", title := "Free Placement Test", subtitle := "60–90 minutes (one-time)",
    description := "A short evaluation call to check your level and recommend the best course + package." }

def ctTrial : CourseType :=
  { id := "trial", title := "Free Trial", subtitle := "15–30 minutes (one-time)",
    description := "A short trial session to introduce the class style, discuss your goals, and recommend the best next step." }

/-- The `COURSE_TYPES` literal: the four course-type cards of Step 1. -/
def COURSE_TYPES : List CourseType := [ctMain, ctConv, ctPlacement, ctTrial]

/-- The `CURRENCIES` config object: `{ USD: { label, symbol }, KWD: { label, symbol } }`. -/
def CURRENCIES : List (String × CurrencyInfo) :=
  [("USD", { label := "USD", symbol := "$" }),
   ("KWD", { label := "KWD", symbol := "KWD " })]

def pkgM1 : Package :=
  { id := "m1", lessons := 1, price := [("USD", 15), ("KWD", 5)], title := "Quick Start",
    per := [("USD", "$15 per lesson"), ("KWD", "5 KWD per lesson")] }

def pkgM10 : Package :=
  { id := "m10", lessons := 10, price := [("USD", 140), ("KWD", 45)], title := "Starter Pack",
    per := [("USD", "$14 per lesson"), ("KWD", "4.5 KWD per lesson")] }

def pkgM20 : Package :=
  { id := "m20", lessons := 20, price := [("USD", 260), ("KWD", 80)], title := "Momentum Month",
    per := [("USD", "$13 per lesson"), ("KWD", "4 KWD per lesson")] }

def pkgM40 : Package :=
  { id := "m40", lessons := 40, price := [("USD", 480), ("KWD", 150)], title := "Consistency Plan",
    per := [("USD", "$12 per lesson"), ("KWD", "3.75 KWD per lesson")] }

def pkgM80 : Package :=
  { id := "m80", lessons := 80, price := [("USD", 880), ("KWD", 270)], title := "Full Level Journey",
    per := [("USD", "$11 per lesson"), ("KWD", "3.4 KWD per lesson")] }

def pkgC1 : Package :=
  { id := "c1", lessons := 1, price := [("USD", 10), ("KWD", 3)], title := "Warm-Up Chat",
    per := [("USD", "$10 per lesson"), ("KWD", "3 KWD per lesson")] }

def pkgC10 : Package :=
  { id := "c10", lessons := 10, price := [("USD", 90), ("KWD", 28)], title := "Fluency Starter",
    per := [("USD", "$9 per lesson"), ("KWD", "2.8 KWD per lesson")] }

def pkgC20 : Package :=
  { id := "c20", lessons := 20, price := [("USD", 160), ("KWD", 50)], title := "Talk-a-Lot Plan",
    per := [("USD", "$8 per lesson"), ("KWD", "2.5 KWD per lesson")] }

def pkgC40 : Package :=
  { id := "c40", lessons := 40, price := [("USD", 280), ("KWD", 86)], title := "Conversation Pro",
    per := [("USD", "$7 per lesson"), ("KWD", "2.15 KWD per lesson")] }

def pkgP1 : Package :=
  { id := "p1", lessons := 1, price := [("USD", 0), ("KWD", 0)], title := "Book a Free Placement Test",
    per := [("USD", "Free (one-time)"), ("KWD", "Free (one-time)")] }

def pkgT1 : Package :=
  { id := "t1", lessons := 1, price := [("USD", 0), ("KWD", 0)], title := "Book a Free Trial",
    per := [("USD", "Free (one-time)"), ("KWD", "Free (one-time)")] }

/-- The `PACKAGES` literal: packages grouped per course type. A lookup with a
key other than the four course-type ids yields `undefined` (`none`). -/
def PACKAGES : List (String × List Package) :=
  [("main", [pkgM1, pkgM10, pkgM20, pkgM40, pkgM80]),
   ("conv", [pkgC1, pkgC10, pkgC20, pkgC40]),
   ("placement", [pkgP1]),
   ("trial", [pkgT1])]

/-- The safe currency, `const safeCurrency = CURRENCIES[currency] ? currency : "USD"`: an object
present in the table is truthy, so an unrecognized code degrades to USD. -/
def safeCurrency (currency : String) : String :=
  if (getProp CURRENCIES currency).isSome then currency else "USD"

/-- Rendering of a JS number by string interpolation, for the exact decimal
values the app produces (integers, and the 2-decimal values left by
`Math.round(x*100)/100`). Denominators beyond two decimal places cannot arise
from those operations; for them we fall back to the raw rational's print,
which no theorem below depends on. -/
def jsNumToString (q : ℚ) : String :=
  if q.den = 1 then toString q.num
  else
    let sgn := if q < 0 then "-" else ""
    let a : ℚ := |q|
    let ip : ℤ := a.floor
    let c : ℚ := (a - ip) * 100
    if c.den = 1 then
      let n : ℤ := c.num
      if n % 10 = 0 then sgn ++ toString ip ++ "." ++ toString (n / 10)
      else if n < 10 then sgn ++ toString ip ++ ".0" ++ toString n
      else sgn ++ toString ip ++ "." ++ toString n
    else toString q

/-- JS rounding `Math.round(x)`: round half towards positive infinity,
`⌊x + 1/2⌋`, computed through `Rat.floor`. -/
def jsRound (q : ℚ) : ℤ := (q + 1/2).floor

/-- The `money` helper, `(amount) => CURRENCIES[safeCurrency].symbol + amount`.
`safeCurrency` always lands on a key of `CURRENCIES`, so the `getD ""`
default is never taken. -/
def money (currency : String) (amount : ℚ) : String :=
  ((getProp CURRENCIES (safeCurrency currency)).map CurrencyInfo.symbol).getD ""
    ++ jsNumToString amount

/-- The resolved numeric total, as computed inline in `pkgTotal`, `pkgPer`
and the submission payload:
`pkg.price?.[safeCurrency] ?? pkg.price?.USD ?? 0`. -/
def resolveAmount (p : Package) (currency : String) : ℚ :=
  (getProp p.price (safeCurrency currency)).getD ((getProp p.price "USD").getD 0)

/-- The `pkgTotal` helper: `""` for a null package; `"Free"` when the resolved
amount is exactly 0; otherwise the `money`-formatted amount. -/
def pkgTotal (pkg : Option Package) (currency : String) : String :=
  match pkg with
  | none => ""
  | some p =>
    let amount := resolveAmount p currency
    if amount = 0 then "Free" else money currency amount

/-- The synthesized per-lesson label of `pkgPer` (taken when no truthy
pre-formatted label exists): `per = lessons ? amount / lessons : amount`,
rounded to 2 decimals (`Math.round(per * 100) / 100`; the
`Number.isFinite` test is always true on rationals), then formatted as
`"$<v> per lesson"` when `safeCurrency === "USD"` and
`"<v> KWD per lesson"` otherwise. -/
def pkgPerSynth (p : Package) (currency : String) : String :=
  let amount := resolveAmount p currency
  let per : ℚ := if p.lessons ≠ 0 then amount / (p.lessons : ℚ) else amount
  let rounded : ℚ := (jsRound (per * 100) : ℤ) / 100
  if safeCurrency currency = "USD" then
    ((getProp CURRENCIES (safeCurrency currency)).map CurrencyInfo.symbol).getD ""
      ++ jsNumToString rounded ++ " per lesson"
  else
    jsNumToString rounded ++ " KWD per lesson"

/-- The `pkgPer` helper: `""` for a null package; the pre-formatted label
`pkg.per?.[safeCurrency]` when it is truthy (`if (perStr) return perStr`);
otherwise the synthesized label. -/
def pkgPer (pkg : Option Package) (currency : String) : String :=
  match pkg with
  | none => ""
  | some p =>
    match getProp p.per (safeCurrency currency) with
    | some perStr => if truthy perStr then perStr else pkgPerSynth p currency
    | none => pkgPerSynth p currency

/-- The applicant form fields (`formData` state), all raw strings. -/
structure FormData where
  fullName : String
  email : String
  phone : String
  country : String
  preferredDate : String
  preferredTime : String
deriving DecidableEq, Repr

/-- The `needsSchedule` gate: truthy iff the selected course type is `trial` or
`placement`, or the selected package is a single lesson
(`selectedType?.id === "trial" || selectedType?.id === "placement" ||
selectedPackage?.lessons === 1`). -/
def needsSchedule (selType : Option CourseType) (selPackage : Option Package) : Bool :=
  (selType.map CourseType.id == some "trial") ||
  (selType.map CourseType.id == some "placement") ||
  (selPackage.map Package.lessons == some 1)

/-- The `isFormValid` gate: a chain of `&&` over the truthiness of the trimmed
fields, with the two schedule fields required only when `needsSchedule`. -/
def isFormValid (formData : FormData) (needsSched : Bool) : Bool :=
  truthy formData.fullName.trim &&
  truthy formData.email.trim &&
  truthy formData.phone.trim &&
  truthy formData.country.trim &&
  (!needsSched || (truthy formData.preferredDate.trim && truthy formData.preferredTime.trim))

/-- The derived `selectedType`: `COURSE_TYPES.find((t) => t.id === typeId) || null`. -/
def selectedType (typeId : Option String) : Option CourseType :=
  COURSE_TYPES.find? (fun t => some t.id == typeId)

/-- The derived `selectedPackage`: `if (!typeId) return null; return
PACKAGES[typeId].find((p) => p.id === packageId) || null;`. A non-null,
non-empty `typeId` that is not a key of `PACKAGES` makes `PACKAGES[typeId]`
`undefined`, and the `.find` call on it throws a `TypeError`, modelled as
`Except.error`. -/
def selectedPackageE (typeId packageId : Option String) : Except String (Option Package) :=
  match typeId with
  | none => .ok none
  | some t =>
    if t = "" then .ok none
    else
      match getProp PACKAGES t with
      | none => .error "TypeError: PACKAGES[typeId] is undefined"
      | some pkgs => .ok (pkgs.find? (fun p => some p.id == packageId))

/-- The whole per-session React state of `App`: the step label, the two
selection ids, the currency, the form fields, and the submission result
(`isSubmitting`, `submitStatus`, `submitMessage`). -/
structure AppState where
  step : String
  typeId : Option String
  packageId : Option String
  currency : String
  formData : FormData
  isSubmitting : Bool
  submitStatus : Option String
  submitMessage : String
deriving DecidableEq, Repr

/-- The all-empty form object, as in the `useState` initializer and in `reset`. -/
def emptyFormData : FormData :=
  { fullName := "", email := "", phone := "", country := "",
    preferredDate := "", preferredTime := "" }

/-- The initial state of every `useState` hook: step `"type"`, no selections,
currency `"USD"`, empty form, idle submission. -/
def initialState : AppState :=
  { step := "type", typeId := none, packageId := none, currency := "USD",
    formData := emptyFormData, isSubmitting := false, submitStatus := none,
    submitMessage := "" }

/-- The `reset` handler: sets the step back to `"type"`, clears both selection ids, the
form fields and the submission result. It calls every setter except
`setCurrency`, so the currency is left as it was. -/
def reset (s : AppState) : AppState :=
  { s with
    step := "type",
    typeId := none,
    packageId := none,
    formData := emptyFormData,
    isSubmitting := false,
    submitStatus := none,
    submitMessage := "" }

/-- The Step-1 card button: `setTypeId(t.id); setPackageId(null); setStep("packages")`. -/
def selectCategoryAction (s : AppState) (id : String) : AppState :=
  { s with typeId := some id, packageId := none, step := "packages" }

/-- The Step-2 card button: `setPackageId(p.id); setStep("details")`. -/
def selectBundleAction (s : AppState) (id : String) : AppState :=
  { s with packageId := some id, step := "details" }

/-- The Step-2 Back button: `setPackageId(null); setStep("type")`. -/
def backFromPackages (s : AppState) : AppState :=
  { s with packageId := none, step := "type" }

/-- The Step-3 Apply-now button: `setStep("apply")`. -/
def applyNowAction (s : AppState) : AppState :=
  { s with step := "apply" }

/-- The Step-3 Back button: `setStep("packages")`. -/
def backFromDetails (s : AppState) : AppState :=
  { s with step := "packages" }

/-- The Step-4 Back button: `setStep("details")`. -/
def backFromApply (s : AppState) : AppState :=
  { s with step := "details" }

/-- A currency-picker button: `setCurrency(c)` (the UI offers `"USD"` and `"KWD"`). -/
def setCurrencyAction (s : AppState) (c : String) : AppState :=
  { s with currency := c }

/-- A form-field edit: `setFormData(...)` replaces the form object. -/
def setFormDataAction (s : AppState) (fd : FormData) : AppState :=
  { s with formData := fd }

/-- The start of `handleSubmit` (after the guard): `setIsSubmitting(true);
setSubmitStatus(null); setSubmitMessage("")`. -/
def submitStartAction (s : AppState) : AppState :=
  { s with isSubmitting := true, submitStatus := none, submitMessage := "" }

/-- One error object of a Formspree rejection body; `message` is `none` when
the `message` property is absent. -/
structure JsErrorObj where
  message : Option String
deriving DecidableEq, Repr

/-- A parsed Formspree rejection body: `errors` is `none` when the `errors`
property is absent. -/
structure RejectionData where
  errors : Option (List JsErrorObj)
deriving DecidableEq, Repr

/-- The three-way outcome of the delivery call, as `handleSubmit` observes it:
a 2xx response, a non-2xx response whose body parses to `some data` (or fails
to parse, `none`), or an exception from `fetch` itself carrying
`err?.message` (`none` when absent). -/
inductive DeliveryOutcome where
  | accepted
  | rejected (body : Option RejectionData)
  | transportFailure (message : Option String)
deriving DecidableEq, Repr

/-- The generic fallback failure text (`errText`'s initial value, also the
fallback of `err?.message || ...`). -/
def genericFailureText : String := "Submission failed. Please try again."

/-- The fixed confirmation message of the success branch. -/
def successText : String := "Submitted! We will contact you by email with the next steps."

/-- The failure text computed for a non-2xx response: start from the generic
text; if the body parsed and `data?.errors?.length` is truthy, take
`data.errors[0].message || errText`. -/
def rejectionText (body : Option RejectionData) : String :=
  let errText := genericFailureText
  match body with
  | none => errText
  | some data =>
    match data.errors with
    | some (e :: _) =>
      match e.message with
      | some m => if truthy m then m else errText
      | none => errText
    | _ => errText

/-- The state left by the tail of `handleSubmit` once the delivery outcome is
known: the success branch, or the `catch` branch (`err?.message || generic`),
followed in every case by the `finally` branch `setIsSubmitting(false)`. -/
def applyOutcome (s : AppState) (o : DeliveryOutcome) : AppState :=
  match o with
  | .accepted =>
    { s with
      submitStatus := some "success",
      submitMessage := successText,
      isSubmitting := false }
  | .rejected body =>
    { s with
      submitStatus := some "error",
      submitMessage := rejectionText body,
      isSubmitting := false }
  | .transportFailure msg =>
    { s with
      submitStatus := some "error",
      submitMessage :=
        match msg with
        | some m => if truthy m then m else genericFailureText
        | none => genericFailureText,
      isSubmitting := false }

/-- The outbound submission payload: a flat record with exactly the fifteen
keys of the `payload` literal in `handleSubmit`. -/
structure Payload where
  fullName : String
  email : String
  phone : String
  country : String
  preferredDate : String
  preferredTime : String
  courseType : String
  courseTypeId : String
  packageTitle : String
  packageId : String
  lessons : Nat
  currency : String
  totalPrice : ℚ
  displayTotalPrice : String
  displayPricePerLesson : String
deriving DecidableEq, Repr

/-- The `payload` literal of `handleSubmit`, built from the form data, the
(guard-checked, hence present) selected type and package, and the currency. -/
def buildPayload (fd : FormData) (ct : CourseType) (p : Package) (currency : String) : Payload :=
  let ns := needsSchedule (some ct) (some p)
  { fullName := fd.fullName,
    email := fd.email,
    phone := fd.phone,
    country := fd.country,
    preferredDate := if ns then fd.preferredDate else "",
    preferredTime := if ns then fd.preferredTime else "",
    courseType := ct.title,
    courseTypeId := ct.id,
    packageTitle := p.title,
    packageId := p.id,
    lessons := p.lessons,
    currency := safeCurrency currency,
    totalPrice := (getProp p.price (safeCurrency currency)).getD ((getProp p.price "USD").getD 0),
    displayTotalPrice := pkgTotal (some p) currency,
    displayPricePerLesson := pkgPer (some p) currency }

/-- The interactive transitions the rendered UI exposes, each guarded by the
rendering condition of the widget that fires it. Submission resolution is
asynchronous, so it is enabled whenever a submission is in flight. -/
inductive UiStep : AppState → AppState → Prop where
  | selectCategory (s : AppState) (t : CourseType)
      (hs : s.step = "type") (ht : t ∈ COURSE_TYPES) :
      UiStep s (selectCategoryAction s t.id)
  | selectBundle (s : AppState) (ct : CourseType) (pkgs : List Package) (p : Package)
      (hs : s.step = "packages") (hct : selectedType s.typeId = some ct)
      (hpk : getProp PACKAGES ct.id = some pkgs) (hp : p ∈ pkgs) :
      UiStep s (selectBundleAction s p.id)
  | backPackages (s : AppState) (hs : s.step = "packages")
      (hct : (selectedType s.typeId).isSome = true) :
      UiStep s (backFromPackages s)
  | applyNow (s : AppState) (p : Package) (hs : s.step = "details")
      (hct : (selectedType s.typeId).isSome = true)
      (hp : selectedPackageE s.typeId s.packageId = .ok (some p)) :
      UiStep s (applyNowAction s)
  | backDetails (s : AppState) (hs : s.step = "details")
      (hct : (selectedType s.typeId).isSome = true) :
      UiStep s (backFromDetails s)
  | backApply (s : AppState) (hs : s.step = "apply")
      (hct : (selectedType s.typeId).isSome = true) :
      UiStep s (backFromApply s)
  | resetClick (s : AppState) : UiStep s (reset s)
  | setCurrencyUSD (s : AppState) : UiStep s (setCurrencyAction s "USD")
  | setCurrencyKWD (s : AppState) : UiStep s (setCurrencyAction s "KWD")
  | editField (s : AppState) (fd : FormData) (hs : s.step = "apply") :
      UiStep s (setFormDataAction s fd)
  | submitStart (s : AppState) (hs : s.step = "apply")
      (hsub : s.isSubmitting = false) :
      UiStep s (submitStartAction s)
  | submitResolve (s : AppState) (o : DeliveryOutcome)
      (h : s.isSubmitting = true) :
      UiStep s (applyOutcome s o)

/-- A state is reachable when some sequence of UI transitions leads to it
from the initial state. -/
def Reachable (s : AppState) : Prop :=
  Relation.ReflTransGen UiStep initialState s

/-- The no-dangling-bundle invariant: whenever a package id is selected, the
type id resolves to a course type and the package id occurs in that course
type's package list. -/
def bundleSelectionConsistent (s : AppState) : Prop :=
  ∀ b, s.packageId = some b →
    ∃ ct pkgs, selectedType s.typeId = some ct ∧
      getProp PACKAGES ct.id = some pkgs ∧ b ∈ pkgs.map Package.id

/-- Modelled from the spec: the per-currency metadata table of §4.2/§9, the
`CURRENCIES` table extended with a currency-level `symbolPrefixed` flag
(true for USD, false for KWD). The source table has no such flag; this
definition exists to compare the source's formatting branch against the
spec's flag-keyed one. -/
structure CurrencyInfoSpec where
  label : String
  symbol : String
  symbolPrefixed : Bool
deriving DecidableEq, Repr

/-- Modelled from the spec: the flag-carrying currency table. -/
def CURRENCIES_spec : List (String × CurrencyInfoSpec) :=
  [("USD", { label := "USD", symbol := "$", symbolPrefixed := true }),
   ("KWD", { label := "KWD", symbol := "KWD ", symbolPrefixed := false })]

/-- Modelled from the spec (§4.2): the synthesized per-unit label. Divide
the resolved amount by the unit count (taking the amount itself when the
count is 0), round to 2 decimals, and format through the `symbolPrefixed`
flag of the currency table: `"<symbol><value> per lesson"` when the flag is
set, `"<value> <code> per lesson"` otherwise. The fallback-resolved currency
is always in the table, so the `none` arm is dead. -/
def perUnitSynthSpec (p : Package) (currency : String) : String :=
  let amount := resolveAmount p currency
  let perUnit : ℚ := if p.lessons = 0 then amount else amount / (p.lessons : ℚ)
  let rounded : ℚ := (jsRound (perUnit * 100) : ℤ) / 100
  match getProp CURRENCIES_spec (safeCurrency currency) with
  | some info =>
    if info.symbolPrefixed then info.symbol ++ jsNumToString rounded ++ " per lesson"
    else jsNumToString rounded ++ " " ++ info.label ++ " per lesson"
  | none => ""

/-- Modelled from the spec (§4.2 `resolvePerUnitLabel`), with the amendment
that only a nonempty pre-formatted label takes precedence over synthesis. -/
def resolvePerUnitLabelSpec (pkg : Option Package) (currency : String) : String :=
  match pkg with
  | none => ""
  | some p =>
    match getProp p.per (safeCurrency currency) with
    | some s => if s ≠ "" then s else perUnitSynthSpec p currency
    | none => perUnitSynthSpec p currency

/-! Helper lemmas -/

/-- The safe currency is always one of the two table keys. -/
lemma safeCurrency_cases (c : String) : safeCurrency c = "USD" ∨ safeCurrency c = "KWD" := by
  by_cases h1 : c = "USD"
  · subst h1; left; rfl
  by_cases h2 : c = "KWD"
  · subst h2; right; rfl
  · left
    have hnone : getProp CURRENCIES c = none := by
      simp only [getProp, CURRENCIES, List.find?]
      have hu : (("USD" : String) == c) = false :=
        beq_eq_false_iff_ne.mpr (fun h => h1 h.symm)
      have hk : (("KWD" : String) == c) = false :=
        beq_eq_false_iff_ne.mpr (fun h => h2 h.symm)
      rw [hu, hk]
      rfl
    simp [safeCurrency, hnone]

/-- A supported currency code is its own safe currency. -/
lemma safeCurrency_of_supported (c : String) (h : (getProp CURRENCIES c).isSome = true) :
    safeCurrency c = c := by
  simp [safeCurrency, h]

/-- An unsupported currency code degrades to USD. -/
lemma safeCurrency_of_unsupported (c : String) (h : (getProp CURRENCIES c).isSome = false) :
    safeCurrency c = "USD" := by
  simp [safeCurrency, h]

/-! Claim C1 -/

/-- A bundle whose price map carries an entry only for a currency code that
the `CURRENCIES` table does not know. -/
def cexPkgEUR : Package :=
  { id := "x", lessons := 1, price := [("EUR", 7)], title := "X", per := [] }

/-- C1 counterexample: for the requested currency "EUR", `cexPkgEUR`'s price
map has the entry 7, yet the resolved total is 0 (rendered "Free"), because
the lookup key is `safeCurrency`, which degrades the unsupported code to
"USD" before the price map is consulted. The claim's chain
requested-entry → USD-entry → 0 predicts 7 here. -/
theorem resolveTotal_requested_entry_counterexample_c1 :
    getProp cexPkgEUR.price "EUR" = some 7 ∧
    resolveAmount cexPkgEUR "EUR" = 0 ∧
    resolveAmount cexPkgEUR "EUR" ≠ 7 ∧
    pkgTotal (some cexPkgEUR) "EUR" = "Free" := by
  refine ⟨rfl, by decide, by decide, by decide⟩

/-- C1 amended: the fallback chain is keyed on the safe currency: a
supported requested currency with a price entry resolves to that entry;
if the safe-currency entry and the USD entry are both absent the total is 0;
for any currency with no entry in the price map the total equals the USD
resolution; and a resolved total of exactly 0 renders as "Free". -/
theorem resolveTotal_fallback_chain_c1 :
    (∀ (p : Package) (c : String) (a : ℚ),
        (getProp CURRENCIES c).isSome = true → getProp p.price c = some a →
        resolveAmount p c = a) ∧
    (∀ (p : Package) (c : String),
        getProp p.price (safeCurrency c) = none → getProp p.price "USD" = none →
        resolveAmount p c = 0) ∧
    (∀ (p : Package) (c : String),
        getProp p.price c = none →
        resolveAmount p c = resolveAmount p "USD") ∧
    (∀ (p : Package) (c : String),
        resolveAmount p c = 0 → pkgTotal (some p) c = "Free") := by
  refine ⟨?_, ?_, ?_, ?_⟩
  · intro p c a h1 h2
    rw [resolveAmount, safeCurrency_of_supported c h1, h2]
    rfl
  · intro p c h1 h2
    rw [resolveAmount, h1, h2]
    rfl
  · intro p c h1
    have hUSD : safeCurrency "USD" = "USD" := rfl
    by_cases hc : (getProp CURRENCIES c).isSome = true
    · rw [resolveAmount, resolveAmount, hUSD, safeCurrency_of_supported c hc, h1]
      cases husd : getProp p.price "USD" <;> simp [husd]
    · rw [resolveAmount, resolveAmount, hUSD,
        safeCurrency_of_unsupported c (Bool.not_eq_true _ ▸ hc)]
  · intro p c h
    simp [pkgTotal, h]

/-- C1 witness: each clause of the amended chain at a concrete input:
`pkgM1` resolves its KWD entry; `cexPkgEUR` has no USD entry so it resolves
to 0; a currency absent from `pkgM1`'s price map resolves like USD; the free
trial package renders "Free". -/
theorem resolveTotal_fallback_chain_c1_witness :
    resolveAmount pkgM1 "KWD" = 5 ∧
    resolveAmount cexPkgEUR "USD" = 0 ∧
    resolveAmount pkgM1 "EUR" = resolveAmount pkgM1 "USD" ∧
    pkgTotal (some pkgT1) "KWD" = "Free" :=
  ⟨resolveTotal_fallback_chain_c1.1 pkgM1 "KWD" 5 (by decide) (by decide),
   resolveTotal_fallback_chain_c1.2.1 cexPkgEUR "USD" (by decide) (by decide),
   resolveTotal_fallback_chain_c1.2.2.1 pkgM1 "EUR" (by decide),
   resolveTotal_fallback_chain_c1.2.2.2 pkgT1 "KWD" (by decide)⟩

/-! Claim C2 -/

/-- C2: `needsSchedule` is true exactly when the selected course type's id is
"trial" or "placement", or the selected package has exactly 1 lesson; it is
false in every other case, and it is a function of the derived selection
only. -/
theorem needsSchedule_characterization_c2 :
    ∀ (st : Option CourseType) (sp : Option Package),
      needsSchedule st sp = true ↔
        ((∃ t, st = some t ∧ (t.id = "trial" ∨ t.id = "placement")) ∨
         (∃ p, sp = some p ∧ p.lessons = 1)) := by
  intro st sp
  cases st <;> cases sp <;> simp [needsSchedule]

/-! Claim C3 -/

/-- C3: the submit gate is open exactly when the four base fields are
nonempty after trimming and, unless scheduling is not needed, both schedule
fields are nonempty after trimming. -/
theorem isFormValid_characterization_c3 :
    ∀ (fd : FormData) (ns : Bool),
      isFormValid fd ns = true ↔
        (fd.fullName.trim ≠ "" ∧ fd.email.trim ≠ "" ∧ fd.phone.trim ≠ "" ∧
         fd.country.trim ≠ "" ∧
         (ns = false ∨ (fd.preferredDate.trim ≠ "" ∧ fd.preferredTime.trim ≠ ""))) := by
  intro fd ns
  cases ns <;> simp [isFormValid, truthy, and_assoc]

/-! Claim C4 -/

/-- C4 counterexample: from the reachable state in which the user has picked
KWD, `reset` leaves the currency at "KWD" instead of restoring its initial
value "USD", so not every piece of session state returns to its initial
value. -/
theorem reset_keeps_currency_counterexample_c4 :
    Reachable (setCurrencyAction initialState "KWD") ∧
    (reset (setCurrencyAction initialState "KWD")).currency = "KWD" ∧
    (reset (setCurrencyAction initialState "KWD")).currency ≠ initialState.currency :=
  ⟨Relation.ReflTransGen.single (UiStep.setCurrencyKWD initialState), rfl, by decide⟩

/-- C4 amended: `reset`, from any state, restores the step, both selection
ids, all six applicant fields and the whole submission result to their
initial values, but leaves the currency as it was (the currency picker is
the one piece of session state `reset` does not touch). -/
theorem reset_restores_all_but_currency_c4 :
    ∀ s : AppState, reset s = { initialState with currency := s.currency } :=
  fun _ => rfl

/-! Claim C5 -/

/-- C5: selecting a category unconditionally clears the bundle selection and
sets the category id in the same update; consequently, in every reachable
state a selected bundle id references a bundle of the currently selected
category's package list. -/
theorem category_select_clears_bundle_c5 :
    (∀ (s : AppState) (id : String),
        (selectCategoryAction s id).packageId = none ∧
        (selectCategoryAction s id).typeId = some id) ∧
    (∀ s : AppState, Reachable s → bundleSelectionConsistent s) := by
  constructor
  · intro s id
    exact ⟨rfl, rfl⟩
  · intro s h
    induction h with
    | refl =>
      intro b hb
      simp [initialState] at hb
    | tail hab hbc ih =>
      cases hbc with
      | selectCategory t hs ht =>
        intro b hb
        simp [selectCategoryAction] at hb
      | selectBundle ct pkgs p hs hct hpk hp =>
        intro b hb
        simp [selectBundleAction] at hb
        subst hb
        exact ⟨ct, pkgs, hct, hpk, List.mem_map_of_mem Package.id hp⟩
      | backPackages hs hct =>
        intro b hb
        simp [backFromPackages] at hb
      | applyNow p hs hct hp => exact ih
      | backDetails hs hct => exact ih
      | backApply hs hct => exact ih
      | resetClick =>
        intro b hb
        simp [reset] at hb
      | setCurrencyUSD => exact ih
      | setCurrencyKWD => exact ih
      | editField fd hs => exact ih
      | submitStart hs hsub => exact ih
      | submitResolve o hsub => cases o <;> exact ih

/-- C5 witness: the invariant at the concrete reachable state
initial → select "main" → select bundle "m1", and the unconditional clear at
a follow-up category selection. -/
theorem category_select_clears_bundle_c5_witness :
    (selectCategoryAction (selectBundleAction (selectCategoryAction initialState "main") "m1") "conv").packageId = none ∧
    bundleSelectionConsistent (selectBundleAction (selectCategoryAction initialState "main") "m1") := by
  refine ⟨(category_select_clears_bundle_c5.1 _ "conv").1,
    category_select_clears_bundle_c5.2 _ ?_⟩
  have h1 : UiStep initialState (selectCategoryAction initialState "main") :=
    UiStep.selectCategory initialState ctMain rfl (by decide)
  have h2 : UiStep (selectCategoryAction initialState "main")
      (selectBundleAction (selectCategoryAction initialState "main") "m1") :=
    UiStep.selectBundle _ ctMain [pkgM1, pkgM10, pkgM20, pkgM40, pkgM80] pkgM1
      rfl (by decide) (by decide) (by decide)
  exact Relation.ReflTransGen.tail (Relation.ReflTransGen.single h1) h2

/-! Claim C10 -/

/-- C10: the three Back buttons only change the step — and, for the Step-2
Back button, additionally clear only the bundle id — leaving the applicant
fields, the category selection, the currency and the submission result
untouched. -/
theorem back_transitions_frame_c10 :
    ∀ s : AppState,
      ((backFromApply s).step = "details" ∧
       (backFromApply s).typeId = s.typeId ∧
       (backFromApply s).packageId = s.packageId ∧
       (backFromApply s).currency = s.currency ∧
       (backFromApply s).formData = s.formData ∧
       (backFromApply s).isSubmitting = s.isSubmitting ∧
       (backFromApply s).submitStatus = s.submitStatus ∧
       (backFromApply s).submitMessage = s.submitMessage) ∧
      ((backFromDetails s).step = "packages" ∧
       (backFromDetails s).typeId = s.typeId ∧
       (backFromDetails s).packageId = s.packageId ∧
       (backFromDetails s).currency = s.currency ∧
       (backFromDetails s).formData = s.formData ∧
       (backFromDetails s).isSubmitting = s.isSubmitting ∧
       (backFromDetails s).submitStatus = s.submitStatus ∧
       (backFromDetails s).submitMessage = s.submitMessage) ∧
      ((backFromPackages s).step = "type" ∧
       (backFromPackages s).packageId = none ∧
       (backFromPackages s).typeId = s.typeId ∧
       (backFromPackages s).currency = s.currency ∧
       (backFromPackages s).formData = s.formData ∧
       (backFromPackages s).isSubmitting = s.isSubmitting ∧
       (backFromPackages s).submitStatus = s.submitStatus ∧
       (backFromPackages s).submitMessage = s.submitMessage) := by
  intro s
  and_intros <;> rfl

/-! Claim C6 -/

/-- C6: the outcome mapping of `handleSubmit`. A rejection whose parsed body
carries a nonempty error list with a usable (nonempty) first message fails
with that message; a rejection whose body could not be parsed, has no/empty
error list, or whose first error has no usable message fails with the
generic text; a transport exception fails with its message when one is
available and the generic text otherwise; an accepted delivery succeeds with
the fixed confirmation text; and every outcome clears the in-flight flag. -/
theorem submit_outcome_mapping_c6 :
    ∀ s : AppState,
      (∀ (d : RejectionData) (e : JsErrorObj) (rest : List JsErrorObj) (m : String),
          d.errors = some (e :: rest) → e.message = some m → m ≠ "" →
          applyOutcome s (.rejected (some d)) =
            { s with submitStatus := some "error", submitMessage := m, isSubmitting := false }) ∧
      (applyOutcome s (.rejected none) =
        { s with submitStatus := some "error", submitMessage := genericFailureText, isSubmitting := false }) ∧
      (∀ d : RejectionData,
          (d.errors = none ∨ d.errors = some [] ∨
            (∃ e rest, d.errors = some (e :: rest) ∧ (e.message = none ∨ e.message = some ""))) →
          applyOutcome s (.rejected (some d)) =
            { s with submitStatus := some "error", submitMessage := genericFailureText, isSubmitting := false }) ∧
      (∀ m : String, m ≠ "" →
          applyOutcome s (.transportFailure (some m)) =
            { s with submitStatus := some "error", submitMessage := m, isSubmitting := false }) ∧
      (applyOutcome s (.transportFailure none) =
        { s with submitStatus := some "error", submitMessage := genericFailureText, isSubmitting := false }) ∧
      (applyOutcome s (.transportFailure (some "")) =
        { s with submitStatus := some "error", submitMessage := genericFailureText, isSubmitting := false }) ∧
      (applyOutcome s .accepted =
        { s with submitStatus := some "success", submitMessage := successText, isSubmitting := false }) ∧
      (∀ o : DeliveryOutcome, (applyOutcome s o).isSubmitting = false) := by
  intro s
  refine ⟨?_, rfl, ?_, ?_, rfl, ?_, rfl, ?_⟩
  · intro d e rest m hd hm hne
    simp [applyOutcome, rejectionText, hd, hm, truthy, hne]
  · intro d hd
    rcases hd with h | h | ⟨e, rest, h, hm⟩
    · simp [applyOutcome, rejectionText, h]
    · simp [applyOutcome, rejectionText, h]
    · rcases hm with hm | hm <;> simp [applyOutcome, rejectionText, h, hm, truthy]
  · intro m hne
    simp [applyOutcome, truthy, hne]
  · simp [applyOutcome, truthy]
  · intro o
    cases o <;> rfl

/-- C6 witness: a rejection with `errors: [{message: "Invalid email"}]`
fails with "Invalid email"; a transport exception with a message fails with
that message. -/
theorem submit_outcome_mapping_c6_witness :
    applyOutcome (submitStartAction initialState)
        (.rejected (some { errors := some [{ message := some "Invalid email" }] })) =
      { submitStartAction initialState with submitStatus := some "error", submitMessage := "Invalid email", isSubmitting := false } ∧
    applyOutcome (submitStartAction initialState) (.transportFailure (some "NetworkError")) =
      { submitStartAction initialState with submitStatus := some "error", submitMessage := "NetworkError", isSubmitting := false } :=
  ⟨(submit_outcome_mapping_c6 _).1 _ { message := some "Invalid email" } [] "Invalid email"
      rfl rfl (by decide),
   (submit_outcome_mapping_c6 _).2.2.2.1 "NetworkError" (by decide)⟩

/-! Claim C7 -/

/-- C7: the outbound payload is the flat fifteen-key record of the `payload`
literal: the four applicant fields verbatim; the schedule fields carrying
the entered values exactly when `needsSchedule` holds and empty strings
otherwise (the keys are always present); the selected titles, ids and lesson
count; the safe currency code; the resolved numeric total; and the
display strings of the pricing resolver. -/
theorem payload_shape_c7 :
    ∀ (fd : FormData) (ct : CourseType) (p : Package) (currency : String),
      (buildPayload fd ct p currency).fullName = fd.fullName ∧
      (buildPayload fd ct p currency).email = fd.email ∧
      (buildPayload fd ct p currency).phone = fd.phone ∧
      (buildPayload fd ct p currency).country = fd.country ∧
      (buildPayload fd ct p currency).preferredDate =
        (if needsSchedule (some ct) (some p) then fd.preferredDate else "") ∧
      (buildPayload fd ct p currency).preferredTime =
        (if needsSchedule (some ct) (some p) then fd.preferredTime else "") ∧
      (buildPayload fd ct p currency).courseType = ct.title ∧
      (buildPayload fd ct p currency).courseTypeId = ct.id ∧
      (buildPayload fd ct p currency).packageTitle = p.title ∧
      (buildPayload fd ct p currency).packageId = p.id ∧
      (buildPayload fd ct p currency).lessons = p.lessons ∧
      (buildPayload fd ct p currency).currency = safeCurrency currency ∧
      (buildPayload fd ct p currency).totalPrice = resolveAmount p currency ∧
      (buildPayload fd ct p currency).displayTotalPrice = pkgTotal (some p) currency ∧
      (buildPayload fd ct p currency).displayPricePerLesson = pkgPer (some p) currency := by
  intro fd ct p currency
  and_intros <;> rfl

/-! Claim C8 -/

section ConcreteRatEvaluation

attribute [local semireducible] Rat.mul Rat.add Rat.sub Rat.inv

/-- A bundle whose per-unit label for USD is present but empty. -/
def cexPkgEmptyPer : Package :=
  { id := "x", lessons := 2, price := [("USD", 10)], title := "X", per := [("USD", "")] }

/-- C8 counterexample: `cexPkgEmptyPer` has a per-unit label entry for the
resolved currency, yet `pkgPer` does not return it verbatim: the label is
empty, hence falsy, and the synthesized label is returned instead. -/
theorem perUnitLabel_verbatim_counterexample_c8 :
    getProp cexPkgEmptyPer.per (safeCurrency "USD") = some "" ∧
    pkgPer (some cexPkgEmptyPer) "USD" = "$5 per lesson" ∧
    pkgPer (some cexPkgEmptyPer) "USD" ≠ "" := by
  refine ⟨rfl, by decide, by decide⟩

/-- The synthesized label of the source (branching on the literal resolved
code, with a hardcoded "KWD" suffix) coincides with the spec's flag-keyed
formatting for every bundle and currency, because the resolved currency is
always one of the two table keys. -/
lemma pkgPerSynth_eq_spec (p : Package) (c : String) :
    pkgPerSynth p c = perUnitSynthSpec p c := by
  have hless : (if p.lessons ≠ 0 then resolveAmount p c / (p.lessons : ℚ) else resolveAmount p c)
      = (if p.lessons = 0 then resolveAmount p c else resolveAmount p c / (p.lessons : ℚ)) := by
    by_cases hl : p.lessons = 0 <;> simp [hl]
  rcases safeCurrency_cases c with h | h
  · simp [pkgPerSynth, perUnitSynthSpec, h, getProp, CURRENCIES, CURRENCIES_spec, hless]
  · simp [pkgPerSynth, perUnitSynthSpec, h, getProp, CURRENCIES, CURRENCIES_spec, hless,
      String.append_assoc]

/-- C8 amended: a nonempty pre-formatted per-currency label for the
fallback-resolved currency is returned verbatim; and `pkgPer` agrees
everywhere with the spec's resolver, which synthesizes
`round(resolveTotal / unitCount, 2)` (the amount itself when the unit count
is 0) and formats it through the currency-level `symbolPrefixed` flag. -/
theorem perUnitLabel_resolution_c8 :
    (∀ (p : Package) (c : String) (lab : String),
        getProp p.per (safeCurrency c) = some lab → lab ≠ "" →
        pkgPer (some p) c = lab) ∧
    (∀ (pkg : Option Package) (c : String),
        pkgPer pkg c = resolvePerUnitLabelSpec pkg c) := by
  constructor
  · intro p c lab hl hne
    simp [pkgPer, hl, truthy, hne]
  · intro pkg c
    cases pkg with
    | none => rfl
    | some p =>
      cases hl : getProp p.per (safeCurrency c) with
      | none => simp [pkgPer, resolvePerUnitLabelSpec, hl, pkgPerSynth_eq_spec]
      | some s =>
        by_cases hs : s = "" <;>
          simp [pkgPer, resolvePerUnitLabelSpec, hl, truthy, hs, pkgPerSynth_eq_spec]

/-- C8 witness: the verbatim clause at a concrete catalog bundle with a
nonempty KWD label. -/
theorem perUnitLabel_resolution_c8_witness :
    pkgPer (some pkgM10) "KWD" = "4.5 KWD per lesson" :=
  perUnitLabel_resolution_c8.1 pkgM10 "KWD" "4.5 KWD per lesson" rfl (by decide)

end ConcreteRatEvaluation

/-! Claim C9 -/

/-- C9 counterexample: for a category id unknown to the catalog the bundle
list lookup yields `undefined` (not an empty sequence), and the derived
package lookup then throws a `TypeError` instead of returning none. -/
theorem catalog_lookup_throws_counterexample_c9 :
    getProp PACKAGES "unknown" = (none : Option (List Package)) ∧
    selectedPackageE (some "unknown") (some "m1") =
      .error "TypeError: PACKAGES[typeId] is undefined" :=
  ⟨rfl, rfl⟩

/-- C9 amended: `selectedType` is total and returns none whenever no catalog
entry matches; `selectedPackageE` returns none (without raising) when no
type id is set, succeeds for every type id that is a key of `PACKAGES`, and
returns none when the package id does not resolve under such a type id. The
uncaught `TypeError` arises only for a non-null type id outside the catalog,
which the UI never produces. -/
theorem lookups_amended_c9 :
    (∀ tid : Option String,
        (∀ ct ∈ COURSE_TYPES, some ct.id ≠ tid) → selectedType tid = none) ∧
    (∀ pid : Option String, selectedPackageE none pid = .ok none) ∧
    (∀ (t : String) (pid : Option String),
        (getProp PACKAGES t).isSome = true →
        (selectedPackageE (some t) pid).isOk = true) ∧
    (∀ (t : String) (pid : Option String) (pkgs : List Package),
        getProp PACKAGES t = some pkgs → (∀ p ∈ pkgs, some p.id ≠ pid) →
        selectedPackageE (some t) pid = .ok none) := by
  refine ⟨?_, ?_, ?_, ?_⟩
  · intro tid h
    rw [selectedType, List.find?_eq_none]
    intro ct hct
    simpa using h ct hct
  · intro pid
    rfl
  · intro t pid h
    by_cases ht : t = ""
    · subst ht
      exact absurd h (by decide)
    · obtain ⟨pkgs, hp⟩ := Option.isSome_iff_exists.mp h
      simp [selectedPackageE, ht, hp, Except.isOk, Except.toBool]
  · intro t pid pkgs hp hnone
    have ht : t ≠ "" := by
      intro h
      subst h
      simp [getProp, PACKAGES] at hp
    have hfind : pkgs.find? (fun p => some p.id == pid) = none := by
      rw [List.find?_eq_none]
      intro p hmem
      simpa using hnone p hmem
    simp [selectedPackageE, ht, hp, hfind]

/-- C9 witness: the amended clauses at concrete inputs: an id matching no
course type resolves to none; a null type id gives no package; the catalog
key "main" resolves without error; an unknown package id under "main" gives
none. -/
theorem lookups_amended_c9_witness :
    selectedType (some "nope") = none ∧
    selectedPackageE none (some "m1") = .ok none ∧
    (selectedPackageE (some "main") (some "m1")).isOk = true ∧
    selectedPackageE (some "main") (some "zz") = .ok none :=
  ⟨lookups_amended_c9.1 (some "nope") (by decide),
   lookups_amended_c9.2.1 (some "m1"),
   lookups_amended_c9.2.2.1 "main" (some "m1") (by decide),
   lookups_amended_c9.2.2.2 "main" (some "zz") [pkgM1, pkgM10, pkgM20, pkgM40, pkgM80]
     (by decide) (by decide)⟩

end MastersEnglish
